import Mathlib

/-!
Verification development for the pihole_display repository.

This file gives a shallow embedding of the input-to-action dispatch core of
the repository (button press/hold detection, the two confirmation state
machines in `src/services/pihole.py` and `src/services/system.py`, the
dispatch handlers in `main.py`, the process-execution layer, and the
backlight stepping in `src/display/backlight.py`) and proves properties of
that embedding.

Modelling conventions:
* Python floats that are only compared (timestamps, hold thresholds,
  delays) are modelled as rationals.
* `threading.Timer` objects are modelled by natural-number identities: a
  global `fresh` counter allocates identities, a `live` list records the
  timers that have been started and neither cancelled nor fired.
* Side effects (timer start/cancel, display calls, sleeps, launching an
  external command) are recorded in a trace; each trace entry carries a
  snapshot of the state at the moment the effect was issued.
* Fallible Python code is modelled with `Except`: a raised exception is an
  `Except.error` value propagating to the caller.
-/

/-- Timing and threshold constants.  In the repository these are loaded
from `config/config.yaml` (not part of the source tree) via
`src/utils/constants.py`, so they are parameters of the model. -/
structure Consts where
  confirmation_timeout : ℚ
  feedback_delay : ℚ
  system_control_hold : ℚ
  update_select_hold : ℚ
deriving DecidableEq, Repr

/-- A concrete choice of constants, used to evaluate the model. -/
def K0 : Consts :=
  { confirmation_timeout := 30
  , feedback_delay := 2
  , system_control_hold := 3
  , update_select_hold := 3 }

/-! ## Button press/hold detection (`src/src/hardware/button.py`) -/

namespace ButtonHandler

/-- The callback registration and hold threshold of one `ButtonHandler`:
whether a press callback and a hold callback were passed to the
constructor, and the gpiozero `hold_time` threshold. -/
structure Button where
  has_press_callback : Bool
  has_hold_callback : Bool
  hold_time : ℚ
deriving DecidableEq, Repr

/-- The mutable state of a `ButtonHandler`: `_hold_start` (the press
timestamp, `none` when unset) and `_press_handled`. -/
structure BState where
  hold_start : Option ℚ
  press_handled : Bool
deriving DecidableEq, Repr

/-- A logical event emitted to the registered callbacks: a press-callback
invocation or a hold-callback invocation carrying the measured duration. -/
inductive LogicalEvent where
  | press
  | hold (duration : ℚ)
deriving DecidableEq, Repr

/-- `ButtonHandler._handle_press`: invoke the press callback if one is
registered and the press was not already handled this cycle. -/
def handle_press (b : Button) (s : BState) : BState × List LogicalEvent :=
  if b.has_press_callback && !s.press_handled then
    ({ s with press_handled := true }, [LogicalEvent.press])
  else
    (s, [])

/-- The `on_press` closure installed by `_setup_callbacks` when a hold
callback is registered: record the press timestamp, clear
`_press_handled`, and (dead branch in the source, kept for fidelity) fire
the press immediately if no hold callback exists. -/
def on_press (b : Button) (s : BState) (t : ℚ) : BState × List LogicalEvent :=
  let s1 : BState := { hold_start := some t, press_handled := false }
  if !b.has_hold_callback then handle_press b s1 else (s1, [])

/-- `ButtonHandler._on_release`: compute the hold duration; emit the hold
callback when one is registered and the duration reaches
`self.button.hold_time`, otherwise fall back to `_handle_press`; finally
reset `_hold_start` and `_press_handled`. -/
def on_release (b : Button) (s : BState) (t : ℚ) : BState × List LogicalEvent :=
  let (s1, evs) :=
    match s.hold_start with
    | some t0 =>
        let hold_duration := t - t0
        if b.has_hold_callback && decide (b.hold_time ≤ hold_duration) then
          (s, [LogicalEvent.hold hold_duration])
        else
          handle_press b s
    | none => (s, [])
  ({ s1 with hold_start := none, press_handled := false }, evs)

/-- One full press-then-release cycle, wired as `_setup_callbacks` wires
the gpiozero callbacks: with a hold callback registered the `on_press`
closure and `_on_release` run; with only a press callback the press
callback itself runs at press time; with neither, nothing runs. -/
def pressReleaseCycle (b : Button) (s : BState) (t0 t1 : ℚ) :
    BState × List LogicalEvent :=
  if b.has_hold_callback then
    let (s1, e1) := on_press b s t0
    let (s2, e2) := on_release b s1 t1
    (s2, e1 ++ e2)
  else if b.has_press_callback then
    (s, [LogicalEvent.press])
  else
    (s, [])

end ButtonHandler

/-! ## Backlight stepping (`src/src/display/backlight.py`) -/

namespace DisplayBacklight

/-- The brightness state of `DisplayBacklight`: the configured
`brightness_levels` list and the `current_step` index.  The pigpio
handle, pin, gamma and PWM frequency take no part in the stepping
logic (gamma correction is floating-point and is not modelled). -/
structure Backlight where
  brightness_levels : List ℚ
  current_step : Nat
deriving DecidableEq, Repr

/-- `DisplayBacklight._validate_brightness_levels`: `true` exactly when
the checks pass (the Python raises `BacklightError` otherwise): the list
is nonempty, has at least 2 levels, every level lies in `[0, 1]`, and no
adjacent pair is ascending. -/
def validate_brightness_levels (levels : List ℚ) : Bool :=
  !levels.isEmpty &&
  decide (2 ≤ levels.length) &&
  levels.all (fun l => decide (0 ≤ l) && decide (l ≤ 1)) &&
  (levels.zip levels.tail).all (fun p => !decide (p.1 < p.2))

/-- `DisplayBacklight.step_brightness`: advance `current_step` by one
modulo the number of levels (the subsequent `set_brightness` call sets
the hardware PWM and does not change the stepping state). -/
def step_brightness (b : Backlight) : Backlight :=
  { b with current_step := (b.current_step + 1) % b.brightness_levels.length }

/-- The brightness level selected by the current step, as read by
`step_brightness` and `get_brightness_percentage`. -/
def selected_level (b : Backlight) : ℚ :=
  b.brightness_levels.getD b.current_step 0

end DisplayBacklight

/-! ## Confirmation state machines and dispatch
(`src/src/services/pihole.py`, `src/src/services/system.py`,
`src/src/controllers/button_manager.py`, `src/main.py`)

`main.py` routes button events to `manager.pihole.handle_button2_held`,
`handle_button3_press`, … .  The service classes in this source tree name
these entry points `show_menu`, `request_gravity_update`,
`request_pihole_update` (PiHole) and `show_menu`, `request_reboot`,
`request_shutdown` (SystemOps); the dispatch below follows the inline
comments in `main.py` ("Confirm restart", "Confirm gravity update",
"Confirm shutdown", "Confirm pihole update") in matching them up. -/

/-- The two menu controllers. -/
inductive Ctl where
  | pihole
  | system
deriving DecidableEq, Repr

/-- The external commands the controllers can launch. -/
inductive ActionName where
  | gravityUpdate
  | piholeUpdate
  | paddUpdate
  | systemUpdate
  | rebootSystem
  | shutdownSystem
deriving DecidableEq, Repr

/-- Observable side effects of the dispatch core. -/
inductive Effect where
  | timerCancel (c : Ctl) (tid : Nat)
  | timerStart (c : Ctl) (tid : Nat) (duration : ℚ)
  | showPiholeMenu
  | showSystemMenu
  | switchToPadd
  | sleep (d : ℚ)
  | ftlRecoveryWait
  | actionStart (a : ActionName)
deriving DecidableEq, Repr

/-- The confirmation fields shared by `PiHole` and `SystemOps`:
`_waiting_for_confirmation` and `_confirmation_timer` (the identity of the
stored `threading.Timer`, or `none`). -/
structure CtrlState where
  waiting_for_confirmation : Bool
  confirmation_timer : Option Nat
deriving DecidableEq, Repr

/-- The in-memory state of the dispatch core: both controllers, the
`cancellation_in_progress` flag closed over by `main.py`, the list of
timers started and neither cancelled nor fired (`live`), and a counter
allocating timer identities (`fresh`). -/
structure SysState where
  pihole : CtrlState
  system : CtrlState
  cancellation_in_progress : Bool
  live : List (Ctl × Nat)
  fresh : Nat
deriving DecidableEq, Repr

/-- A trace records each effect with a snapshot of the state at the
moment the effect was issued. -/
abbrev Trace := List (Effect × SysState)

/-- The state at process start: both controllers idle, no timers. -/
def initState : SysState :=
  { pihole := { waiting_for_confirmation := false, confirmation_timer := none }
  , system := { waiting_for_confirmation := false, confirmation_timer := none }
  , cancellation_in_progress := false
  , live := []
  , fresh := 0 }

/-- Cancelling a `threading.Timer`: the timer, if still live, will no
longer fire.  Cancelling an already-fired or already-cancelled timer is a
no-op, as in Python. -/
def cancelLive (c : Ctl) (tid : Nat) (l : List (Ctl × Nat)) : List (Ctl × Nat) :=
  l.filter (fun p => p ≠ (c, tid))

namespace PiHole

/-- `PiHole._start_confirmation_timer`: cancel the stored timer if any,
then store and start a fresh `Timer(CONFIRMATION_TIMEOUT, ...)`. -/
def start_confirmation_timer (K : Consts) (s : SysState) : SysState × Trace :=
  let r :=
    match s.pihole.confirmation_timer with
    | some tid =>
        (({ s with live := cancelLive Ctl.pihole tid s.live } : SysState),
         [(Effect.timerCancel Ctl.pihole tid, s)])
    | none => (s, ([] : Trace))
  let s1 := r.1
  let tid := s1.fresh
  let s2 : SysState :=
    { s1 with
      pihole := { s1.pihole with confirmation_timer := some tid }
      live := (Ctl.pihole, tid) :: s1.live
      fresh := s1.fresh + 1 }
  (s2, r.2 ++ [(Effect.timerStart Ctl.pihole tid K.confirmation_timeout, s1)])

/-- `PiHole._clear_confirmation_state`: cancel and drop the stored timer
if any, then clear the waiting flag. -/
def clear_confirmation_state (s : SysState) : SysState × Trace :=
  let r :=
    match s.pihole.confirmation_timer with
    | some tid =>
        (({ s with
            live := cancelLive Ctl.pihole tid s.live
            pihole := { s.pihole with confirmation_timer := none } } : SysState),
         [(Effect.timerCancel Ctl.pihole tid, s)])
    | none => (s, ([] : Trace))
  ({ r.1 with pihole := { r.1.pihole with waiting_for_confirmation := false } }, r.2)

/-- `PiHole.cancel_update`: when waiting, clear the confirmation state,
sleep `FEEDBACK_DELAY`, and switch the display back to PADD; otherwise do
nothing. -/
def cancel_update (K : Consts) (s : SysState) : SysState × Trace :=
  if s.pihole.waiting_for_confirmation then
    let r := clear_confirmation_state s
    (r.1, r.2 ++ [(Effect.sleep K.feedback_delay, r.1), (Effect.switchToPadd, r.1)])
  else
    (s, [])

/-- `PiHole._handle_timeout`: the body the stored timer runs when it
fires — cancel only if still waiting for confirmation. -/
def handle_timeout (K : Consts) (s : SysState) : SysState × Trace :=
  if s.pihole.waiting_for_confirmation then cancel_update K s else (s, [])

/-- `PiHole.show_menu`: on a hold of at least `UPDATE_SELECT_HOLD`, set
the waiting flag, start the confirmation timer, and request the Pi-Hole
menu; if the display request fails, auto-cancel.  `menu_ok` is the
boolean returned by `DisplayManager.show_pihole_menu`. -/
def show_menu (K : Consts) (hold_time : ℚ) (menu_ok : Bool) (s : SysState) :
    SysState × Trace :=
  if K.update_select_hold ≤ hold_time then
    let s1 : SysState :=
      { s with pihole := { s.pihole with waiting_for_confirmation := true } }
    let r2 := start_confirmation_timer K s1
    let t3 : Trace := [(Effect.showPiholeMenu, r2.1)]
    if menu_ok then
      (r2.1, r2.2 ++ t3)
    else
      let r4 := cancel_update K r2.1
      (r4.1, r2.2 ++ t3 ++ r4.2)
  else
    (s, [])

/-- `PiHole.update_gravity` at the dispatch level: run `pihole -g`, then
in a `finally` block sleep `FEEDBACK_DELAY` and switch back to PADD.  The
process outcome does not touch the confirmation state; it is modelled in
the execution layer below. -/
def update_gravity (K : Consts) (s : SysState) : SysState × Trace :=
  (s, [(Effect.actionStart ActionName.gravityUpdate, s),
       (Effect.sleep K.feedback_delay, s), (Effect.switchToPadd, s)])

/-- `PiHole.update_pihole` at the dispatch level: run `pihole -up`, then
in a `finally` block sleep, wait for FTL recovery, and switch to PADD. -/
def update_pihole (K : Consts) (s : SysState) : SysState × Trace :=
  (s, [(Effect.actionStart ActionName.piholeUpdate, s),
       (Effect.sleep K.feedback_delay, s), (Effect.ftlRecoveryWait, s),
       (Effect.switchToPadd, s)])

/-- `PiHole.update_padd` at the dispatch level: run `git pull` in the
PADD directory, then in a `finally` block sleep and switch to PADD. -/
def update_padd (K : Consts) (s : SysState) : SysState × Trace :=
  (s, [(Effect.actionStart ActionName.paddUpdate, s),
       (Effect.sleep K.feedback_delay, s), (Effect.switchToPadd, s)])

/-- `PiHole.request_gravity_update`: when waiting, clear the confirmation
state first, then execute the gravity update. -/
def request_gravity_update (K : Consts) (s : SysState) : SysState × Trace :=
  if s.pihole.waiting_for_confirmation then
    let r1 := clear_confirmation_state s
    let r2 := update_gravity K r1.1
    (r2.1, r1.2 ++ r2.2)
  else
    (s, [])

/-- `PiHole.request_pihole_update`: when waiting, clear the confirmation
state first, then execute the Pi-hole core update. -/
def request_pihole_update (K : Consts) (s : SysState) : SysState × Trace :=
  if s.pihole.waiting_for_confirmation then
    let r1 := clear_confirmation_state s
    let r2 := update_pihole K r1.1
    (r2.1, r1.2 ++ r2.2)
  else
    (s, [])

/-- `PiHole.request_padd_update`: when waiting, clear the confirmation
state first, then execute the PADD update. -/
def request_padd_update (K : Consts) (s : SysState) : SysState × Trace :=
  if s.pihole.waiting_for_confirmation then
    let r1 := clear_confirmation_state s
    let r2 := update_padd K r1.1
    (r2.1, r1.2 ++ r2.2)
  else
    (s, [])

end PiHole

namespace SystemOps

/-- `SystemOps._start_confirmation_timer`: cancel the stored timer if
any, then store and start a fresh `Timer(CONFIRMATION_TIMEOUT, ...)`. -/
def start_confirmation_timer (K : Consts) (s : SysState) : SysState × Trace :=
  let r :=
    match s.system.confirmation_timer with
    | some tid =>
        (({ s with live := cancelLive Ctl.system tid s.live } : SysState),
         [(Effect.timerCancel Ctl.system tid, s)])
    | none => (s, ([] : Trace))
  let s1 := r.1
  let tid := s1.fresh
  let s2 : SysState :=
    { s1 with
      system := { s1.system with confirmation_timer := some tid }
      live := (Ctl.system, tid) :: s1.live
      fresh := s1.fresh + 1 }
  (s2, r.2 ++ [(Effect.timerStart Ctl.system tid K.confirmation_timeout, s1)])

/-- `SystemOps._clear_confirmation_state`: cancel and drop the stored
timer if any, then clear the waiting flag. -/
def clear_confirmation_state (s : SysState) : SysState × Trace :=
  let r :=
    match s.system.confirmation_timer with
    | some tid =>
        (({ s with
            live := cancelLive Ctl.system tid s.live
            system := { s.system with confirmation_timer := none } } : SysState),
         [(Effect.timerCancel Ctl.system tid, s)])
    | none => (s, ([] : Trace))
  ({ r.1 with system := { r.1.system with waiting_for_confirmation := false } }, r.2)

/-- `SystemOps.cancel_confirmation`: when waiting, clear the confirmation
state, sleep `FEEDBACK_DELAY`, and switch the display back to PADD;
otherwise do nothing. -/
def cancel_confirmation (K : Consts) (s : SysState) : SysState × Trace :=
  if s.system.waiting_for_confirmation then
    let r := clear_confirmation_state s
    (r.1, r.2 ++ [(Effect.sleep K.feedback_delay, r.1), (Effect.switchToPadd, r.1)])
  else
    (s, [])

/-- `SystemOps._handle_timeout`: the body the stored timer runs when it
fires — cancel only if still waiting for confirmation. -/
def handle_timeout (K : Consts) (s : SysState) : SysState × Trace :=
  if s.system.waiting_for_confirmation then cancel_confirmation K s else (s, [])

/-- `SystemOps.show_menu`: on a hold of at least `SYSTEM_CONTROL_HOLD`,
set the waiting flag, start the confirmation timer, and request the
system control menu.  The boolean returned by
`DisplayManager.show_system_menu` (`menu_ok`) is not inspected. -/
def show_menu (K : Consts) (hold_time : ℚ) (menu_ok : Bool) (s : SysState) :
    SysState × Trace :=
  if K.system_control_hold ≤ hold_time then
    let s1 : SysState :=
      { s with system := { s.system with waiting_for_confirmation := true } }
    let r2 := start_confirmation_timer K s1
    (r2.1, r2.2 ++ [(Effect.showSystemMenu, r2.1)])
  else
    (s, [])

/-- `SystemOps.update_system` at the dispatch level: run
`apt-get update` and possibly `apt-get full-upgrade`; every path ends by
switching the display back to PADD.  Outcomes are modelled in the
execution layer below; here only the action start is recorded. -/
def update_system (K : Consts) (s : SysState) : SysState × Trace :=
  (s, [(Effect.actionStart ActionName.systemUpdate, s),
       (Effect.sleep K.feedback_delay, s), (Effect.switchToPadd, s)])

/-- `SystemOps.reboot_system` at the dispatch level: print, sleep
`FEEDBACK_DELAY`, then run `sudo reboot`.  No display restore occurs. -/
def reboot_system (K : Consts) (s : SysState) : SysState × Trace :=
  (s, [(Effect.sleep K.feedback_delay, s),
       (Effect.actionStart ActionName.rebootSystem, s)])

/-- `SystemOps.shutdown_system` at the dispatch level: print, sleep
`FEEDBACK_DELAY`, then run `sudo shutdown -h now`. -/
def shutdown_system (K : Consts) (s : SysState) : SysState × Trace :=
  (s, [(Effect.sleep K.feedback_delay, s),
       (Effect.actionStart ActionName.shutdownSystem, s)])

/-- `SystemOps.request_system_update`: when waiting, clear the
confirmation state first, then execute the system update. -/
def request_system_update (K : Consts) (s : SysState) : SysState × Trace :=
  if s.system.waiting_for_confirmation then
    let r1 := clear_confirmation_state s
    let r2 := update_system K r1.1
    (r2.1, r1.2 ++ r2.2)
  else
    (s, [])

/-- `SystemOps.request_reboot`: when waiting, clear the confirmation
state first, then execute the reboot. -/
def request_reboot (K : Consts) (s : SysState) : SysState × Trace :=
  if s.system.waiting_for_confirmation then
    let r1 := clear_confirmation_state s
    let r2 := reboot_system K r1.1
    (r2.1, r1.2 ++ r2.2)
  else
    (s, [])

/-- `SystemOps.request_shutdown`: when waiting, clear the confirmation
state first, then execute the shutdown. -/
def request_shutdown (K : Consts) (s : SysState) : SysState × Trace :=
  if s.system.waiting_for_confirmation then
    let r1 := clear_confirmation_state s
    let r2 := shutdown_system K r1.1
    (r2.1, r1.2 ++ r2.2)
  else
    (s, [])

end SystemOps

namespace ButtonManager

/-- `ButtonManager.cancel_confirmation`: cancel whichever controller is
waiting (PiHole first). -/
def cancel_confirmation (K : Consts) (s : SysState) : SysState × Trace :=
  if s.pihole.waiting_for_confirmation then
    PiHole.cancel_update K s
  else if s.system.waiting_for_confirmation then
    SystemOps.cancel_confirmation K s
  else
    (s, [])

end ButtonManager

namespace Main

/-- `main.button1_pressed`: during a confirmation, cancel it; otherwise
step the backlight brightness (the backlight is modelled separately and
does not touch the confirmation state). -/
def button1_pressed (K : Consts) (s : SysState) : SysState × Trace :=
  if s.pihole.waiting_for_confirmation || s.system.waiting_for_confirmation then
    ButtonManager.cancel_confirmation K s
  else
    (s, [])

/-- `main.button1_held`: during a confirmation, cancel it; otherwise,
when neither controller is waiting, invoke the SystemOps menu entry
point (`manager.system.handle_button1_held`). -/
def button1_held (K : Consts) (hold_time : ℚ) (menu_ok : Bool) (s : SysState) :
    SysState × Trace :=
  if s.pihole.waiting_for_confirmation || s.system.waiting_for_confirmation then
    ButtonManager.cancel_confirmation K s
  else if !s.system.waiting_for_confirmation && !s.pihole.waiting_for_confirmation then
    SystemOps.show_menu K hold_time menu_ok s
  else
    (s, [])

/-- `main.button2_pressed`: during a confirmation, record that a
cancellation is in progress and cancel; otherwise do nothing. -/
def button2_pressed (K : Consts) (s : SysState) : SysState × Trace :=
  if s.pihole.waiting_for_confirmation || s.system.waiting_for_confirmation then
    ButtonManager.cancel_confirmation K
      { s with cancellation_in_progress := true }
  else
    (s, [])

/-- `main.button2_held`: a hold right after a cancellation is ignored
(and resets the flag); otherwise, when neither controller is waiting,
invoke the PiHole menu entry point (`manager.pihole.handle_button2_held`). -/
def button2_held (K : Consts) (hold_time : ℚ) (menu_ok : Bool) (s : SysState) :
    SysState × Trace :=
  if s.cancellation_in_progress then
    ({ s with cancellation_in_progress := false }, [])
  else if !s.system.waiting_for_confirmation && !s.pihole.waiting_for_confirmation then
    PiHole.show_menu K hold_time menu_ok s
  else
    (s, [])

/-- `main.button3_pressed`: first confirmation option — confirm the
restart if SystemOps is waiting, else confirm the gravity update if
PiHole is waiting. -/
def button3_pressed (K : Consts) (s : SysState) : SysState × Trace :=
  if s.system.waiting_for_confirmation then
    SystemOps.request_reboot K s
  else if s.pihole.waiting_for_confirmation then
    PiHole.request_gravity_update K s
  else
    (s, [])

/-- `main.button4_pressed`: second confirmation option — confirm the
shutdown if SystemOps is waiting, else confirm the Pi-hole update if
PiHole is waiting. -/
def button4_pressed (K : Consts) (s : SysState) : SysState × Trace :=
  if s.system.waiting_for_confirmation then
    SystemOps.request_shutdown K s
  else if s.pihole.waiting_for_confirmation then
    PiHole.request_pihole_update K s
  else
    (s, [])

end Main

/-- A timer firing: a live timer runs at most once; firing removes it
from the live set and runs the owning controller's `_handle_timeout`.
Firing a timer that is not live (cancelled, already fired, or never
started) does nothing. -/
def fire_timer (K : Consts) (c : Ctl) (tid : Nat) (s : SysState) :
    SysState × Trace :=
  if (c, tid) ∈ s.live then
    let s1 : SysState := { s with live := cancelLive c tid s.live }
    match c with
    | Ctl.pihole => PiHole.handle_timeout K s1
    | Ctl.system => SystemOps.handle_timeout K s1
  else
    (s, [])

/-- One invocation of a button press/hold handler registered in
`main.py`.  Hold events carry the measured hold time; holds that arm a
menu also carry the boolean result of the display call. -/
inductive BtnEvent where
  | b1p
  | b1h (hold_time : ℚ) (menu_ok : Bool)
  | b2p
  | b2h (hold_time : ℚ) (menu_ok : Bool)
  | b3p
  | b4p
deriving DecidableEq, Repr

/-- An event of the dispatch core: a button handler invocation or the
firing of a confirmation timeout timer. -/
inductive Event where
  | btn (e : BtnEvent)
  | fire (c : Ctl) (tid : Nat)
deriving DecidableEq, Repr

/-- Dispatch one button handler invocation. -/
def stepBtn (K : Consts) (s : SysState) : BtnEvent → SysState × Trace
  | BtnEvent.b1p => Main.button1_pressed K s
  | BtnEvent.b1h q ok => Main.button1_held K q ok s
  | BtnEvent.b2p => Main.button2_pressed K s
  | BtnEvent.b2h q ok => Main.button2_held K q ok s
  | BtnEvent.b3p => Main.button3_pressed K s
  | BtnEvent.b4p => Main.button4_pressed K s

/-- Dispatch one event. -/
def step (K : Consts) (s : SysState) : Event → SysState × Trace
  | Event.btn e => stepBtn K s e
  | Event.fire c tid => fire_timer K c tid s

/-- Run a sequence of events from a state. -/
def runFrom (K : Consts) (s : SysState) (evs : List Event) : SysState :=
  evs.foldl (fun s e => (step K s e).1) s

/-- Run a sequence of events from the initial state. -/
def run (K : Consts) (evs : List Event) : SysState :=
  runFrom K initState evs

/-- Run a sequence of button handler invocations from the initial
state. -/
def runBtn (K : Consts) (evs : List BtnEvent) : SysState :=
  run K (evs.map Event.btn)

/-! ## Execution layer — process outcomes and exceptions
(`src/src/services/system.py`, `src/src/services/pihole.py`)

This layer refines the action execution with the outcome of the external
command, to settle how failures propagate.  A Python exception raised to
the caller is an `Except.error`. -/

/-- The fate of one external command: it spawned and ran to completion
with an exit code and captured output, or a `subprocess.SubprocessError`
was raised (spawn failure, or the `CalledProcessError` that
`subprocess.run(..., check=True)` raises on a non-zero exit). -/
inductive ProcOutcome where
  | completed (returncode : Int) (output : String)
  | subprocessError (msg : String)
deriving DecidableEq, Repr

/-- The cause a `ServiceError` was built from.  The Python code
interpolates `str(e)` of the underlying exception into the message; the
model keeps the cause structured. -/
inductive FailureCause where
  | calledProcessError (returncode : Int)
  | spawnFailure (msg : String)
deriving DecidableEq, Repr

/-- `src/utils/exceptions.ServiceError`, as raised by the service
classes: the operation being attempted and the underlying cause. -/
structure ServiceError where
  operation : String
  cause : FailureCause
deriving DecidableEq, Repr

/-- Whether `"All packages are up to date."` occurs in the captured
output (the Python `in` test in `SystemOps.update_system`). -/
def containsUpToDate (output : String) : Bool :=
  2 ≤ (output.splitOn "All packages are up to date.").length

namespace SystemOps

/-- `SystemOps._run_process_command` given the command's outcome: a
completed process returns `(returncode, output)` — a non-zero exit is a
result, not an exception; a `SubprocessError` is re-raised as a
`ServiceError`.  The `finally` block (sleep then switch to PADD when
`finish`) runs on both paths, before any exception propagates. -/
def run_process_command (K : Consts) (o : ProcOutcome) (operation : String)
    (finish : Bool) : Except ServiceError (Int × String) × List Effect :=
  let fin : List Effect :=
    if finish then [Effect.sleep K.feedback_delay, Effect.switchToPadd] else []
  match o with
  | ProcOutcome.completed rc out => (Except.ok (rc, out), fin)
  | ProcOutcome.subprocessError m =>
      (Except.error { operation := operation, cause := FailureCause.spawnFailure m },
       fin)

/-- `SystemOps.update_system` given the outcomes of `apt-get update`
(`o1`) and `apt-get full-upgrade` (`o2`): every failure path is caught by
the surrounding `except Exception` and ends by restoring the display, so
the call always returns normally. -/
def update_system_exec (K : Consts) (o1 o2 : ProcOutcome) :
    Except ServiceError Unit × List Effect :=
  match run_process_command K o1 "package list update" false with
  | (Except.error _, t1) =>
      -- caught by `except Exception`; print, sleep, switch back
      (Except.ok (), t1 ++ [Effect.sleep K.feedback_delay, Effect.switchToPadd])
  | (Except.ok (rc, out), t1) =>
      if rc ≠ 0 then
        (Except.ok (), t1 ++ [Effect.sleep K.feedback_delay, Effect.switchToPadd])
      else if containsUpToDate out then
        (Except.ok (), t1 ++ [Effect.sleep K.feedback_delay, Effect.switchToPadd])
      else
        match run_process_command K o2 "system upgrade" true with
        | (Except.error _, t2) =>
            (Except.ok (),
             t1 ++ t2 ++ [Effect.sleep K.feedback_delay, Effect.switchToPadd])
        | (Except.ok _, t2) => (Except.ok (), t1 ++ t2)

/-- `SystemOps.reboot_system` given the outcome of
`subprocess.run(['sudo', 'reboot'], check=True)`: a non-zero exit raises
`CalledProcessError` and a spawn failure raises `SubprocessError`; both
are re-raised as `ServiceError` and propagate to the caller.  No path
restores the display. -/
def reboot_system_exec (K : Consts) (o : ProcOutcome) :
    Except ServiceError Unit × List Effect :=
  let pre : List Effect := [Effect.sleep K.feedback_delay]
  match o with
  | ProcOutcome.completed rc _ =>
      if rc = 0 then
        (Except.ok (), pre ++ [Effect.actionStart ActionName.rebootSystem])
      else
        (Except.error
           { operation := "reboot system"
           , cause := FailureCause.calledProcessError rc },
         pre ++ [Effect.actionStart ActionName.rebootSystem])
  | ProcOutcome.subprocessError m =>
      (Except.error
         { operation := "reboot system", cause := FailureCause.spawnFailure m },
       pre)

/-- `SystemOps.shutdown_system` given the outcome of
`subprocess.run(['sudo', 'shutdown', '-h', 'now'], check=True)`. -/
def shutdown_system_exec (K : Consts) (o : ProcOutcome) :
    Except ServiceError Unit × List Effect :=
  let pre : List Effect := [Effect.sleep K.feedback_delay]
  match o with
  | ProcOutcome.completed rc _ =>
      if rc = 0 then
        (Except.ok (), pre ++ [Effect.actionStart ActionName.shutdownSystem])
      else
        (Except.error
           { operation := "shutdown system"
           , cause := FailureCause.calledProcessError rc },
         pre ++ [Effect.actionStart ActionName.shutdownSystem])
  | ProcOutcome.subprocessError m =>
      (Except.error
         { operation := "shutdown system", cause := FailureCause.spawnFailure m },
       pre)

/-- `SystemOps.request_reboot` with the reboot outcome threaded through:
there is no handler between `reboot_system` and the caller, so an error
escapes. -/
def request_reboot_exec (K : Consts) (o : ProcOutcome) (s : SysState) :
    Except ServiceError SysState × List Effect :=
  if s.system.waiting_for_confirmation then
    let r1 := clear_confirmation_state s
    let r2 := reboot_system_exec K o
    match r2.1 with
    | Except.ok _ => (Except.ok r1.1, r1.2.map Prod.fst ++ r2.2)
    | Except.error e => (Except.error e, r1.2.map Prod.fst ++ r2.2)
  else
    (Except.ok s, [])

/-- `SystemOps.request_shutdown` with the shutdown outcome threaded
through. -/
def request_shutdown_exec (K : Consts) (o : ProcOutcome) (s : SysState) :
    Except ServiceError SysState × List Effect :=
  if s.system.waiting_for_confirmation then
    let r1 := clear_confirmation_state s
    let r2 := shutdown_system_exec K o
    match r2.1 with
    | Except.ok _ => (Except.ok r1.1, r1.2.map Prod.fst ++ r2.2)
    | Except.error e => (Except.error e, r1.2.map Prod.fst ++ r2.2)
  else
    (Except.ok s, [])

end SystemOps

namespace Main

/-- `main.button3_pressed` with the reboot outcome threaded through: the
handler has no try/except, so a `ServiceError` raised by
`SystemOps.request_reboot` escapes the button-event path. -/
def button3_pressed_exec (K : Consts) (o : ProcOutcome) (s : SysState) :
    Except ServiceError SysState × List Effect :=
  if s.system.waiting_for_confirmation then
    SystemOps.request_reboot_exec K o s
  else if s.pihole.waiting_for_confirmation then
    let r1 := PiHole.request_gravity_update K s
    (Except.ok r1.1, r1.2.map Prod.fst)
  else
    (Except.ok s, [])

end Main

namespace PiHole

/-- `PiHole.update_gravity` given the command outcome: the body is
wrapped in `try/except Exception/finally`, so every outcome — success,
non-zero exit, or a raised exception — is absorbed, and the `finally`
block sleeps `FEEDBACK_DELAY` and switches the display back to PADD. -/
def update_gravity_exec (K : Consts) (o : ProcOutcome) :
    Except ServiceError Unit × List Effect :=
  let body : List Effect :=
    match o with
    | ProcOutcome.completed _ _ => [Effect.actionStart ActionName.gravityUpdate]
    | ProcOutcome.subprocessError _ => []
  (Except.ok (), body ++ [Effect.sleep K.feedback_delay, Effect.switchToPadd])

/-- `PiHole.update_pihole` given the command outcome: as
`update_gravity`, with the FTL recovery wait in the `finally` block
before the switch back to PADD. -/
def update_pihole_exec (K : Consts) (o : ProcOutcome) :
    Except ServiceError Unit × List Effect :=
  let body : List Effect :=
    match o with
    | ProcOutcome.completed _ _ => [Effect.actionStart ActionName.piholeUpdate]
    | ProcOutcome.subprocessError _ => []
  (Except.ok (),
   body ++ [Effect.sleep K.feedback_delay, Effect.ftlRecoveryWait,
            Effect.switchToPadd])

/-- `PiHole.update_padd` given the command outcome: as `update_gravity`
(the `except` clauses catch `TimeoutExpired` and `Exception`). -/
def update_padd_exec (K : Consts) (o : ProcOutcome) :
    Except ServiceError Unit × List Effect :=
  let body : List Effect :=
    match o with
    | ProcOutcome.completed _ _ => [Effect.actionStart ActionName.paddUpdate]
    | ProcOutcome.subprocessError _ => []
  (Except.ok (), body ++ [Effect.sleep K.feedback_delay, Effect.switchToPadd])

end PiHole

/-! ## Invariants -/

/-- The controller state selected by a `Ctl` tag. -/
def getCtl (s : SysState) : Ctl → CtrlState
  | Ctl.pihole => s.pihole
  | Ctl.system => s.system

/-- Mutual exclusion: at most one controller is waiting for
confirmation. -/
def MutexInv (s : SysState) : Prop :=
  s.pihole.waiting_for_confirmation = false ∨
  s.system.waiting_for_confirmation = false

/-- Session discipline: every live (started, not cancelled, not fired)
timer is the one currently stored by its controller — there are no stale
timers from earlier confirmation sessions. -/
def TimerInv (s : SysState) : Prop :=
  ∀ c tid, (c, tid) ∈ s.live → (getCtl s c).confirmation_timer = some tid

/-! # Theorems -/

/-! ## Helper lemmas: what each controller operation does to the state -/

theorem pihole_start_system_eq (K : Consts) (s : SysState) :
    ((PiHole.start_confirmation_timer K s).1).system = s.system := by
  unfold PiHole.start_confirmation_timer
  cases h : s.pihole.confirmation_timer <;> simp [h]

theorem pihole_clear_system_eq (s : SysState) :
    ((PiHole.clear_confirmation_state s).1).system = s.system := by
  unfold PiHole.clear_confirmation_state
  cases h : s.pihole.confirmation_timer <;> simp [h]

theorem pihole_clear_pihole_eq (s : SysState) :
    ((PiHole.clear_confirmation_state s).1).pihole =
      { waiting_for_confirmation := false, confirmation_timer := none } := by
  unfold PiHole.clear_confirmation_state
  cases h : s.pihole.confirmation_timer <;> simp [h]

theorem pihole_cancel_system_eq (K : Consts) (s : SysState) :
    ((PiHole.cancel_update K s).1).system = s.system := by
  unfold PiHole.cancel_update
  by_cases h : s.pihole.waiting_for_confirmation <;>
    simp [h, pihole_clear_system_eq]

theorem pihole_cancel_not_waiting (K : Consts) (s : SysState) :
    ((PiHole.cancel_update K s).1).pihole.waiting_for_confirmation = false := by
  unfold PiHole.cancel_update
  by_cases h : s.pihole.waiting_for_confirmation <;>
    simp [h, pihole_clear_pihole_eq]

theorem pihole_show_menu_system_eq (K : Consts) (q : ℚ) (ok : Bool) (s : SysState) :
    ((PiHole.show_menu K q ok s).1).system = s.system := by
  unfold PiHole.show_menu
  by_cases hq : K.update_select_hold ≤ q
  · cases ok <;> simp [hq, pihole_cancel_system_eq, pihole_start_system_eq]
  · simp [hq]

theorem pihole_request_gravity_not_waiting (K : Consts) (s : SysState) :
    ((PiHole.request_gravity_update K s).1).pihole.waiting_for_confirmation
      = false ∨ (PiHole.request_gravity_update K s).1 = s := by
  unfold PiHole.request_gravity_update
  by_cases h : s.pihole.waiting_for_confirmation
  · exact Or.inl (by simp [h, PiHole.update_gravity, pihole_clear_pihole_eq])
  · exact Or.inr (by simp [h])

theorem pihole_request_pihole_not_waiting (K : Consts) (s : SysState) :
    ((PiHole.request_pihole_update K s).1).pihole.waiting_for_confirmation
      = false ∨ (PiHole.request_pihole_update K s).1 = s := by
  unfold PiHole.request_pihole_update
  by_cases h : s.pihole.waiting_for_confirmation
  · exact Or.inl (by simp [h, PiHole.update_pihole, pihole_clear_pihole_eq])
  · exact Or.inr (by simp [h])

theorem system_start_pihole_eq (K : Consts) (s : SysState) :
    ((SystemOps.start_confirmation_timer K s).1).pihole = s.pihole := by
  unfold SystemOps.start_confirmation_timer
  cases h : s.system.confirmation_timer <;> simp [h]

theorem system_clear_pihole_eq (s : SysState) :
    ((SystemOps.clear_confirmation_state s).1).pihole = s.pihole := by
  unfold SystemOps.clear_confirmation_state
  cases h : s.system.confirmation_timer <;> simp [h]

theorem system_clear_system_eq (s : SysState) :
    ((SystemOps.clear_confirmation_state s).1).system =
      { waiting_for_confirmation := false, confirmation_timer := none } := by
  unfold SystemOps.clear_confirmation_state
  cases h : s.system.confirmation_timer <;> simp [h]

theorem system_cancel_pihole_eq (K : Consts) (s : SysState) :
    ((SystemOps.cancel_confirmation K s).1).pihole = s.pihole := by
  unfold SystemOps.cancel_confirmation
  by_cases h : s.system.waiting_for_confirmation <;>
    simp [h, system_clear_pihole_eq]

theorem system_cancel_not_waiting (K : Consts) (s : SysState) :
    ((SystemOps.cancel_confirmation K s).1).system.waiting_for_confirmation = false := by
  unfold SystemOps.cancel_confirmation
  by_cases h : s.system.waiting_for_confirmation <;>
    simp [h, system_clear_system_eq]

theorem system_show_menu_pihole_eq (K : Consts) (q : ℚ) (ok : Bool) (s : SysState) :
    ((SystemOps.show_menu K q ok s).1).pihole = s.pihole := by
  unfold SystemOps.show_menu
  by_cases hq : K.system_control_hold ≤ q <;>
    simp [hq, system_start_pihole_eq]

theorem system_request_reboot_not_waiting (K : Consts) (s : SysState) :
    ((SystemOps.request_reboot K s).1).system.waiting_for_confirmation
      = false ∨ (SystemOps.request_reboot K s).1 = s := by
  unfold SystemOps.request_reboot
  by_cases h : s.system.waiting_for_confirmation
  · exact Or.inl (by simp [h, SystemOps.reboot_system, system_clear_system_eq])
  · exact Or.inr (by simp [h])

theorem system_request_shutdown_not_waiting (K : Consts) (s : SysState) :
    ((SystemOps.request_shutdown K s).1).system.waiting_for_confirmation
      = false ∨ (SystemOps.request_shutdown K s).1 = s := by
  unfold SystemOps.request_shutdown
  by_cases h : s.system.waiting_for_confirmation
  · exact Or.inl (by simp [h, SystemOps.shutdown_system, system_clear_system_eq])
  · exact Or.inr (by simp [h])

theorem manager_cancel_mutex (K : Consts) (s : SysState) :
    MutexInv ((ButtonManager.cancel_confirmation K s).1) := by
  unfold ButtonManager.cancel_confirmation MutexInv
  by_cases hp : s.pihole.waiting_for_confirmation
  · simp only [hp, if_true]
    exact Or.inl (pihole_cancel_not_waiting K s)
  · by_cases hs : s.system.waiting_for_confirmation
    · simp only [hp, hs, if_true, if_false, Bool.false_eq_true]
      exact Or.inr (system_cancel_not_waiting K s)
    · simp [hp, hs]

theorem stepBtn_mutex (K : Consts) (s : SysState) (e : BtnEvent)
    (h : MutexInv s) : MutexInv ((stepBtn K s e).1) := by
  cases e with
  | b1p =>
      unfold stepBtn Main.button1_pressed
      by_cases hps : s.pihole.waiting_for_confirmation ||
        s.system.waiting_for_confirmation
      · simp only [hps, if_true]
        exact manager_cancel_mutex K s
      · simpa [hps] using h
  | b1h q ok =>
      unfold stepBtn Main.button1_held
      by_cases hps : s.pihole.waiting_for_confirmation ||
        s.system.waiting_for_confirmation
      · simp only [hps, if_true]
        exact manager_cancel_mutex K s
      · simp only [Bool.or_eq_true, not_or, Bool.not_eq_true] at hps
        simp only [hps.1, hps.2, Bool.or_self, Bool.false_eq_true, if_false,
          Bool.not_false, Bool.and_self, if_true]
        exact Or.inl (by rw [system_show_menu_pihole_eq]; exact hps.1)
  | b2p =>
      unfold stepBtn Main.button2_pressed
      by_cases hps : s.pihole.waiting_for_confirmation ||
        s.system.waiting_for_confirmation
      · simp only [hps, if_true]
        exact manager_cancel_mutex K _
      · simpa [hps] using h
  | b2h q ok =>
      unfold stepBtn Main.button2_held
      by_cases hc : s.cancellation_in_progress
      · simpa [hc] using h
      · by_cases hg : !s.system.waiting_for_confirmation &&
          !s.pihole.waiting_for_confirmation
        · simp only [Bool.and_eq_true, Bool.not_eq_true'] at hg
          simp only [hc, Bool.false_eq_true, if_false, hg.1, hg.2,
            Bool.not_false, Bool.and_self, if_true]
          exact Or.inr (by rw [pihole_show_menu_system_eq]; exact hg.1)
        · simpa [hc, hg] using h
  | b3p =>
      unfold stepBtn Main.button3_pressed
      by_cases hs : s.system.waiting_for_confirmation
      · simp only [hs, if_true]
        rcases system_request_reboot_not_waiting K s with hw | heq
        · exact Or.inr hw
        · rw [heq]; exact h
      · by_cases hp : s.pihole.waiting_for_confirmation
        · simp only [hs, hp, Bool.false_eq_true, if_false, if_true]
          rcases pihole_request_gravity_not_waiting K s with hw | heq
          · exact Or.inl hw
          · rw [heq]; exact h
        · simpa [hs, hp] using h
  | b4p =>
      unfold stepBtn Main.button4_pressed
      by_cases hs : s.system.waiting_for_confirmation
      · simp only [hs, if_true]
        rcases system_request_shutdown_not_waiting K s with hw | heq
        · exact Or.inr hw
        · rw [heq]; exact h
      · by_cases hp : s.pihole.waiting_for_confirmation
        · simp only [hs, hp, Bool.false_eq_true, if_false, if_true]
          rcases pihole_request_pihole_not_waiting K s with hw | heq
          · exact Or.inl hw
          · rw [heq]; exact h
        · simpa [hs, hp] using h

theorem runFrom_mutex (K : Consts) (evs : List BtnEvent) (s : SysState)
    (h : MutexInv s) : MutexInv (runFrom K s (evs.map Event.btn)) := by
  induction evs generalizing s with
  | nil => exact h
  | cons e rest ih =>
      simp only [List.map_cons, runFrom, List.foldl_cons]
      exact ih _ (stepBtn_mutex K s e h)

/-- C2: in every state reachable from the initial state (both controllers
idle) by any sequence of button press/hold handler invocations, at most
one of the two controllers has its waiting-for-confirmation flag true:
at least one of the two flags is false. -/
theorem c2_at_most_one_armed (K : Consts) (evs : List BtnEvent) :
    (runBtn K evs).pihole.waiting_for_confirmation = false ∨
    (runBtn K evs).system.waiting_for_confirmation = false := by
  have h := runFrom_mutex K evs initState (Or.inl rfl)
  unfold runBtn run
  exact h

theorem mem_cancelLive {p : Ctl × Nat} {c : Ctl} {tid : Nat} {l : List (Ctl × Nat)} :
    p ∈ cancelLive c tid l ↔ p ∈ l ∧ p ≠ (c, tid) := by
  unfold cancelLive
  simp [List.mem_filter]

theorem pihole_start_eq_none (K : Consts) (s : SysState)
    (ht : s.pihole.confirmation_timer = none) :
    PiHole.start_confirmation_timer K s =
      ({ s with
         pihole := { s.pihole with confirmation_timer := some s.fresh }
         live := (Ctl.pihole, s.fresh) :: s.live
         fresh := s.fresh + 1 },
       [(Effect.timerStart Ctl.pihole s.fresh K.confirmation_timeout, s)]) := by
  unfold PiHole.start_confirmation_timer
  simp [ht]

theorem pihole_start_eq_some (K : Consts) (s : SysState) (old : Nat)
    (ht : s.pihole.confirmation_timer = some old) :
    PiHole.start_confirmation_timer K s =
      ({ s with
         pihole := { s.pihole with confirmation_timer := some s.fresh }
         live := (Ctl.pihole, s.fresh) :: cancelLive Ctl.pihole old s.live
         fresh := s.fresh + 1 },
       [(Effect.timerCancel Ctl.pihole old, s),
        (Effect.timerStart Ctl.pihole s.fresh K.confirmation_timeout,
         { s with live := cancelLive Ctl.pihole old s.live })]) := by
  unfold PiHole.start_confirmation_timer
  simp [ht]

theorem pihole_clear_eq_none (s : SysState)
    (ht : s.pihole.confirmation_timer = none) :
    PiHole.clear_confirmation_state s =
      ({ s with
         pihole := { waiting_for_confirmation := false, confirmation_timer := none } },
       []) := by
  unfold PiHole.clear_confirmation_state
  simp only [ht]

theorem pihole_clear_eq_some (s : SysState) (old : Nat)
    (ht : s.pihole.confirmation_timer = some old) :
    PiHole.clear_confirmation_state s =
      ({ s with
         pihole := { waiting_for_confirmation := false, confirmation_timer := none }
         live := cancelLive Ctl.pihole old s.live },
       [(Effect.timerCancel Ctl.pihole old, s)]) := by
  unfold PiHole.clear_confirmation_state
  simp [ht]

theorem system_start_eq_none (K : Consts) (s : SysState)
    (ht : s.system.confirmation_timer = none) :
    SystemOps.start_confirmation_timer K s =
      ({ s with
         system := { s.system with confirmation_timer := some s.fresh }
         live := (Ctl.system, s.fresh) :: s.live
         fresh := s.fresh + 1 },
       [(Effect.timerStart Ctl.system s.fresh K.confirmation_timeout, s)]) := by
  unfold SystemOps.start_confirmation_timer
  simp [ht]

theorem system_start_eq_some (K : Consts) (s : SysState) (old : Nat)
    (ht : s.system.confirmation_timer = some old) :
    SystemOps.start_confirmation_timer K s =
      ({ s with
         system := { s.system with confirmation_timer := some s.fresh }
         live := (Ctl.system, s.fresh) :: cancelLive Ctl.system old s.live
         fresh := s.fresh + 1 },
       [(Effect.timerCancel Ctl.system old, s),
        (Effect.timerStart Ctl.system s.fresh K.confirmation_timeout,
         { s with live := cancelLive Ctl.system old s.live })]) := by
  unfold SystemOps.start_confirmation_timer
  simp [ht]

theorem system_clear_eq_none (s : SysState)
    (ht : s.system.confirmation_timer = none) :
    SystemOps.clear_confirmation_state s =
      ({ s with
         system := { waiting_for_confirmation := false, confirmation_timer := none } },
       []) := by
  unfold SystemOps.clear_confirmation_state
  simp only [ht]

theorem system_clear_eq_some (s : SysState) (old : Nat)
    (ht : s.system.confirmation_timer = some old) :
    SystemOps.clear_confirmation_state s =
      ({ s with
         system := { waiting_for_confirmation := false, confirmation_timer := none }
         live := cancelLive Ctl.system old s.live },
       [(Effect.timerCancel Ctl.system old, s)]) := by
  unfold SystemOps.clear_confirmation_state
  simp [ht]

theorem pihole_start_timerInv (K : Consts) (s : SysState) (h : TimerInv s) :
    TimerInv ((PiHole.start_confirmation_timer K s).1) := by
  cases ht : s.pihole.confirmation_timer with
  | none =>
      rw [pihole_start_eq_none K s ht]
      intro c tid hmem
      cases c with
      | pihole =>
          simp only [List.mem_cons, Prod.mk.injEq, true_and] at hmem
          rcases hmem with rfl | hmem
          · rfl
          · have := h Ctl.pihole tid hmem
            simp only [getCtl] at this
            exact absurd this (by simp [ht])
      | system =>
          simp only [List.mem_cons, Prod.mk.injEq, reduceCtorEq, false_and,
            false_or] at hmem
          exact h Ctl.system tid hmem
  | some old =>
      rw [pihole_start_eq_some K s old ht]
      intro c tid hmem
      cases c with
      | pihole =>
          simp only [List.mem_cons, Prod.mk.injEq, true_and] at hmem
          rcases hmem with rfl | hmem
          · rfl
          · obtain ⟨hmem, hne⟩ := mem_cancelLive.mp hmem
            have := h Ctl.pihole tid hmem
            simp only [getCtl, ht, Option.some.injEq] at this
            exact absurd (by rw [this]) hne
      | system =>
          simp only [List.mem_cons, Prod.mk.injEq, reduceCtorEq, false_and,
            false_or] at hmem
          exact h Ctl.system tid (mem_cancelLive.mp hmem).1

theorem pihole_clear_timerInv (s : SysState) (h : TimerInv s) :
    TimerInv ((PiHole.clear_confirmation_state s).1) := by
  cases ht : s.pihole.confirmation_timer with
  | none =>
      rw [pihole_clear_eq_none s ht]
      intro c tid hmem
      cases c with
      | pihole =>
          have := h Ctl.pihole tid hmem
          simp only [getCtl] at this
          exact absurd this (by simp [ht])
      | system => exact h Ctl.system tid hmem
  | some old =>
      rw [pihole_clear_eq_some s old ht]
      intro c tid hmem
      obtain ⟨hmem, hne⟩ := mem_cancelLive.mp hmem
      cases c with
      | pihole =>
          have := h Ctl.pihole tid hmem
          simp only [getCtl, ht, Option.some.injEq] at this
          exact absurd (by rw [this]) hne
      | system => exact h Ctl.system tid hmem

theorem pihole_cancel_timerInv (K : Consts) (s : SysState) (h : TimerInv s) :
    TimerInv ((PiHole.cancel_update K s).1) := by
  unfold PiHole.cancel_update
  by_cases hw : s.pihole.waiting_for_confirmation
  · simpa [hw] using pihole_clear_timerInv s h
  · simpa [hw] using h

theorem pihole_timeout_timerInv (K : Consts) (s : SysState) (h : TimerInv s) :
    TimerInv ((PiHole.handle_timeout K s).1) := by
  unfold PiHole.handle_timeout
  by_cases hw : s.pihole.waiting_for_confirmation
  · simpa [hw] using pihole_cancel_timerInv K s h
  · simpa [hw] using h

theorem pihole_set_waiting_timerInv (s : SysState) (w : Bool) (h : TimerInv s) :
    TimerInv { s with pihole := { s.pihole with waiting_for_confirmation := w } } := by
  intro c tid hmem
  cases c with
  | pihole => exact h Ctl.pihole tid hmem
  | system => exact h Ctl.system tid hmem

theorem pihole_show_menu_timerInv (K : Consts) (q : ℚ) (ok : Bool) (s : SysState)
    (h : TimerInv s) : TimerInv ((PiHole.show_menu K q ok s).1) := by
  unfold PiHole.show_menu
  by_cases hq : K.update_select_hold ≤ q
  · have h1 := pihole_set_waiting_timerInv s true h
    cases ok
    · simpa [hq] using
        pihole_cancel_timerInv K _ (pihole_start_timerInv K _ h1)
    · simpa [hq] using pihole_start_timerInv K _ h1
  · simpa [hq] using h

theorem pihole_request_gravity_timerInv (K : Consts) (s : SysState)
    (h : TimerInv s) : TimerInv ((PiHole.request_gravity_update K s).1) := by
  unfold PiHole.request_gravity_update PiHole.update_gravity
  by_cases hw : s.pihole.waiting_for_confirmation
  · simpa [hw] using pihole_clear_timerInv s h
  · simpa [hw] using h

theorem pihole_request_pihole_timerInv (K : Consts) (s : SysState)
    (h : TimerInv s) : TimerInv ((PiHole.request_pihole_update K s).1) := by
  unfold PiHole.request_pihole_update PiHole.update_pihole
  by_cases hw : s.pihole.waiting_for_confirmation
  · simpa [hw] using pihole_clear_timerInv s h
  · simpa [hw] using h

theorem pihole_request_padd_timerInv (K : Consts) (s : SysState)
    (h : TimerInv s) : TimerInv ((PiHole.request_padd_update K s).1) := by
  unfold PiHole.request_padd_update PiHole.update_padd
  by_cases hw : s.pihole.waiting_for_confirmation
  · simpa [hw] using pihole_clear_timerInv s h
  · simpa [hw] using h

theorem system_start_timerInv (K : Consts) (s : SysState) (h : TimerInv s) :
    TimerInv ((SystemOps.start_confirmation_timer K s).1) := by
  cases ht : s.system.confirmation_timer with
  | none =>
      rw [system_start_eq_none K s ht]
      intro c tid hmem
      cases c with
      | system =>
          simp only [List.mem_cons, Prod.mk.injEq, true_and] at hmem
          rcases hmem with rfl | hmem
          · rfl
          · have := h Ctl.system tid hmem
            simp only [getCtl] at this
            exact absurd this (by simp [ht])
      | pihole =>
          simp only [List.mem_cons, Prod.mk.injEq, reduceCtorEq, false_and,
            false_or] at hmem
          exact h Ctl.pihole tid hmem
  | some old =>
      rw [system_start_eq_some K s old ht]
      intro c tid hmem
      cases c with
      | system =>
          simp only [List.mem_cons, Prod.mk.injEq, true_and] at hmem
          rcases hmem with rfl | hmem
          · rfl
          · obtain ⟨hmem, hne⟩ := mem_cancelLive.mp hmem
            have := h Ctl.system tid hmem
            simp only [getCtl, ht, Option.some.injEq] at this
            exact absurd (by rw [this]) hne
      | pihole =>
          simp only [List.mem_cons, Prod.mk.injEq, reduceCtorEq, false_and,
            false_or] at hmem
          exact h Ctl.pihole tid (mem_cancelLive.mp hmem).1

theorem system_clear_timerInv (s : SysState) (h : TimerInv s) :
    TimerInv ((SystemOps.clear_confirmation_state s).1) := by
  cases ht : s.system.confirmation_timer with
  | none =>
      rw [system_clear_eq_none s ht]
      intro c tid hmem
      cases c with
      | system =>
          have := h Ctl.system tid hmem
          simp only [getCtl] at this
          exact absurd this (by simp [ht])
      | pihole => exact h Ctl.pihole tid hmem
  | some old =>
      rw [system_clear_eq_some s old ht]
      intro c tid hmem
      obtain ⟨hmem, hne⟩ := mem_cancelLive.mp hmem
      cases c with
      | system =>
          have := h Ctl.system tid hmem
          simp only [getCtl, ht, Option.some.injEq] at this
          exact absurd (by rw [this]) hne
      | pihole => exact h Ctl.pihole tid hmem

theorem system_cancel_timerInv (K : Consts) (s : SysState) (h : TimerInv s) :
    TimerInv ((SystemOps.cancel_confirmation K s).1) := by
  unfold SystemOps.cancel_confirmation
  by_cases hw : s.system.waiting_for_confirmation
  · simpa [hw] using system_clear_timerInv s h
  · simpa [hw] using h

theorem system_timeout_timerInv (K : Consts) (s : SysState) (h : TimerInv s) :
    TimerInv ((SystemOps.handle_timeout K s).1) := by
  unfold SystemOps.handle_timeout
  by_cases hw : s.system.waiting_for_confirmation
  · simpa [hw] using system_cancel_timerInv K s h
  · simpa [hw] using h

theorem system_set_waiting_timerInv (s : SysState) (w : Bool) (h : TimerInv s) :
    TimerInv { s with system := { s.system with waiting_for_confirmation := w } } := by
  intro c tid hmem
  cases c with
  | pihole => exact h Ctl.pihole tid hmem
  | system => exact h Ctl.system tid hmem

theorem system_show_menu_timerInv (K : Consts) (q : ℚ) (ok : Bool) (s : SysState)
    (h : TimerInv s) : TimerInv ((SystemOps.show_menu K q ok s).1) := by
  unfold SystemOps.show_menu
  by_cases hq : K.system_control_hold ≤ q
  · simpa [hq] using
      system_start_timerInv K _ (system_set_waiting_timerInv s true h)
  · simpa [hq] using h

theorem system_request_system_timerInv (K : Consts) (s : SysState)
    (h : TimerInv s) : TimerInv ((SystemOps.request_system_update K s).1) := by
  unfold SystemOps.request_system_update SystemOps.update_system
  by_cases hw : s.system.waiting_for_confirmation
  · simpa [hw] using system_clear_timerInv s h
  · simpa [hw] using h

theorem system_request_reboot_timerInv (K : Consts) (s : SysState)
    (h : TimerInv s) : TimerInv ((SystemOps.request_reboot K s).1) := by
  unfold SystemOps.request_reboot SystemOps.reboot_system
  by_cases hw : s.system.waiting_for_confirmation
  · simpa [hw] using system_clear_timerInv s h
  · simpa [hw] using h

theorem system_request_shutdown_timerInv (K : Consts) (s : SysState)
    (h : TimerInv s) : TimerInv ((SystemOps.request_shutdown K s).1) := by
  unfold SystemOps.request_shutdown SystemOps.shutdown_system
  by_cases hw : s.system.waiting_for_confirmation
  · simpa [hw] using system_clear_timerInv s h
  · simpa [hw] using h

theorem manager_cancel_timerInv (K : Consts) (s : SysState) (h : TimerInv s) :
    TimerInv ((ButtonManager.cancel_confirmation K s).1) := by
  unfold ButtonManager.cancel_confirmation
  by_cases hp : s.pihole.waiting_for_confirmation
  · simpa [hp] using pihole_cancel_timerInv K s h
  · by_cases hs : s.system.waiting_for_confirmation
    · simpa [hp, hs] using system_cancel_timerInv K s h
    · simpa [hp, hs] using h

theorem cancellation_flag_timerInv (s : SysState) (v : Bool) (h : TimerInv s) :
    TimerInv { s with cancellation_in_progress := v } := by
  intro c tid hmem
  cases c with
  | pihole => exact h Ctl.pihole tid hmem
  | system => exact h Ctl.system tid hmem

theorem stepBtn_timerInv (K : Consts) (s : SysState) (e : BtnEvent)
    (h : TimerInv s) : TimerInv ((stepBtn K s e).1) := by
  cases e with
  | b1p =>
      unfold stepBtn Main.button1_pressed
      by_cases hps : s.pihole.waiting_for_confirmation ||
        s.system.waiting_for_confirmation
      · simpa [hps] using manager_cancel_timerInv K s h
      · simpa [hps] using h
  | b1h q ok =>
      unfold stepBtn Main.button1_held
      by_cases hps : s.pihole.waiting_for_confirmation ||
        s.system.waiting_for_confirmation
      · simpa [hps] using manager_cancel_timerInv K s h
      · simp only [Bool.or_eq_true, not_or, Bool.not_eq_true] at hps
        simpa [hps.1, hps.2] using system_show_menu_timerInv K q ok s h
  | b2p =>
      unfold stepBtn Main.button2_pressed
      by_cases hps : s.pihole.waiting_for_confirmation ||
        s.system.waiting_for_confirmation
      · simpa [hps] using
          manager_cancel_timerInv K _ (cancellation_flag_timerInv s true h)
      · simpa [hps] using h
  | b2h q ok =>
      unfold stepBtn Main.button2_held
      by_cases hc : s.cancellation_in_progress
      · simpa [hc] using cancellation_flag_timerInv s false h
      · by_cases hg : !s.system.waiting_for_confirmation &&
          !s.pihole.waiting_for_confirmation
        · simpa [hc, hg] using pihole_show_menu_timerInv K q ok s h
        · simpa [hc, hg] using h
  | b3p =>
      unfold stepBtn Main.button3_pressed
      by_cases hs : s.system.waiting_for_confirmation
      · simpa [hs] using system_request_reboot_timerInv K s h
      · by_cases hp : s.pihole.waiting_for_confirmation
        · simpa [hs, hp] using pihole_request_gravity_timerInv K s h
        · simpa [hs, hp] using h
  | b4p =>
      unfold stepBtn Main.button4_pressed
      by_cases hs : s.system.waiting_for_confirmation
      · simpa [hs] using system_request_shutdown_timerInv K s h
      · by_cases hp : s.pihole.waiting_for_confirmation
        · simpa [hs, hp] using pihole_request_pihole_timerInv K s h
        · simpa [hs, hp] using h

theorem cancelLive_timerInv (s : SysState) (c : Ctl) (tid : Nat)
    (h : TimerInv s) : TimerInv { s with live := cancelLive c tid s.live } := by
  intro c' tid' hmem
  have hmem' := (mem_cancelLive.mp hmem).1
  cases c' with
  | pihole => exact h Ctl.pihole tid' hmem'
  | system => exact h Ctl.system tid' hmem'

theorem fire_timer_timerInv (K : Consts) (c : Ctl) (tid : Nat) (s : SysState)
    (h : TimerInv s) : TimerInv ((fire_timer K c tid s).1) := by
  unfold fire_timer
  by_cases hmem : (c, tid) ∈ s.live
  · have h1 := cancelLive_timerInv s c tid h
    cases c with
    | pihole => simpa [hmem] using pihole_timeout_timerInv K _ h1
    | system => simpa [hmem] using system_timeout_timerInv K _ h1
  · simpa [hmem] using h

theorem step_timerInv (K : Consts) (s : SysState) (e : Event)
    (h : TimerInv s) : TimerInv ((step K s e).1) := by
  cases e with
  | btn e => exact stepBtn_timerInv K s e h
  | fire c tid => exact fire_timer_timerInv K c tid s h

theorem run_timerInv (K : Consts) (evs : List Event) : TimerInv (run K evs) := by
  unfold run
  have hinit : TimerInv initState := by
    intro c tid hmem
    simp [initState] at hmem
  generalize initState = s at hinit ⊢
  induction evs generalizing s with
  | nil => exact hinit
  | cons e rest ih =>
      simp only [runFrom, List.foldl_cons]
      exact ih _ (step_timerInv K s e hinit)

theorem pihole_cancel_noop (K : Consts) (s : SysState)
    (h : s.pihole.waiting_for_confirmation = false) :
    PiHole.cancel_update K s = (s, []) := by
  unfold PiHole.cancel_update
  simp [h]

theorem system_cancel_noop (K : Consts) (s : SysState)
    (h : s.system.waiting_for_confirmation = false) :
    SystemOps.cancel_confirmation K s = (s, []) := by
  unfold SystemOps.cancel_confirmation
  simp [h]

theorem pihole_cancel_armed_clears (K : Consts) (s : SysState)
    (hw : s.pihole.waiting_for_confirmation = true) :
    ((PiHole.cancel_update K s).1).pihole =
      { waiting_for_confirmation := false, confirmation_timer := none } := by
  unfold PiHole.cancel_update
  simp [hw, pihole_clear_pihole_eq]

theorem pihole_start_waiting_eq (K : Consts) (s : SysState) :
    ((PiHole.start_confirmation_timer K s).1).pihole.waiting_for_confirmation =
      s.pihole.waiting_for_confirmation := by
  unfold PiHole.start_confirmation_timer
  cases h : s.pihole.confirmation_timer <;> simp [h]

theorem system_start_waiting_eq (K : Consts) (s : SysState) :
    ((SystemOps.start_confirmation_timer K s).1).system.waiting_for_confirmation =
      s.system.waiting_for_confirmation := by
  unfold SystemOps.start_confirmation_timer
  cases h : s.system.confirmation_timer <;> simp [h]

/-- C9: cancelling an idle controller is a no-op — the state (including
timers and the live-timer set) is unchanged and no effect (timer
manipulation, display call, sleep) is issued — and cancel is idempotent:
after one cancel the controller is idle, so a second cancel in a row does
nothing more, for both `PiHole.cancel_update` and
`SystemOps.cancel_confirmation`. -/
theorem c9_cancel_idle_noop_idempotent (K : Consts) (s s' : SysState)
    (h1 : s.pihole.waiting_for_confirmation = false)
    (h2 : s.system.waiting_for_confirmation = false) :
    PiHole.cancel_update K s = (s, []) ∧
    SystemOps.cancel_confirmation K s = (s, []) ∧
    PiHole.cancel_update K ((PiHole.cancel_update K s').1) =
      ((PiHole.cancel_update K s').1, []) ∧
    SystemOps.cancel_confirmation K ((SystemOps.cancel_confirmation K s').1) =
      ((SystemOps.cancel_confirmation K s').1, []) := by
  refine ⟨pihole_cancel_noop K s h1, system_cancel_noop K s h2, ?_, ?_⟩
  · exact pihole_cancel_noop K _ (pihole_cancel_not_waiting K s')
  · exact system_cancel_noop K _ (system_cancel_not_waiting K s')

/-- C9 witness: evaluating the theorem at the initial state (idle) and at
an armed state. -/
theorem c9_witness :
    initState.pihole.waiting_for_confirmation = false ∧
    initState.system.waiting_for_confirmation = false ∧
    (PiHole.cancel_update K0 initState = (initState, []) ∧
     SystemOps.cancel_confirmation K0 initState = (initState, []) ∧
     PiHole.cancel_update K0 ((PiHole.cancel_update K0 (runBtn K0 [BtnEvent.b2h 3 true])).1) =
       ((PiHole.cancel_update K0 (runBtn K0 [BtnEvent.b2h 3 true])).1, []) ∧
     SystemOps.cancel_confirmation K0
         ((SystemOps.cancel_confirmation K0 (runBtn K0 [BtnEvent.b2h 3 true])).1) =
       ((SystemOps.cancel_confirmation K0 (runBtn K0 [BtnEvent.b2h 3 true])).1, [])) :=
  ⟨rfl, rfl, c9_cancel_idle_noop_idempotent K0 initState
    (runBtn K0 [BtnEvent.b2h 3 true]) rfl rfl⟩

/-- C4 counterexample: with a qualifying hold and a failing display call,
`SystemOps.show_menu` leaves the SystemOps controller armed
(waiting-for-confirmation still true), so the claim "for every
controller, a failed display request causes an immediate transition back
to idle" is false on the SystemOps controller. -/
theorem c4_counterexample :
    ((SystemOps.show_menu K0 3 false initState).1).system.waiting_for_confirmation
      = true := by decide

/-- C4 (amended): on a failed show-menu display call, the PiHole
controller auto-cancels (waiting flag cleared and timer dropped), but the
SystemOps controller does not inspect the display result and remains
armed. -/
theorem c4_display_failure (K : Consts) (s sP : SysState) (q : ℚ)
    (hq1 : K.update_select_hold ≤ q) (hq2 : K.system_control_hold ≤ q) :
    (((PiHole.show_menu K q false sP).1).pihole.waiting_for_confirmation = false ∧
     ((PiHole.show_menu K q false sP).1).pihole.confirmation_timer = none) ∧
    ((SystemOps.show_menu K q false s).1).system.waiting_for_confirmation = true := by
  constructor
  · unfold PiHole.show_menu
    simp only [hq1, if_true, Bool.false_eq_true, ite_false]
    have hw : ((PiHole.start_confirmation_timer K
        { sP with pihole := { sP.pihole with waiting_for_confirmation := true } }).1).pihole.waiting_for_confirmation = true := by
      rw [pihole_start_waiting_eq]
    constructor
    · rw [show ((PiHole.cancel_update K _).1).pihole = _ from
        pihole_cancel_armed_clears K _ hw]
    · rw [show ((PiHole.cancel_update K _).1).pihole = _ from
        pihole_cancel_armed_clears K _ hw]
  · unfold SystemOps.show_menu
    simp only [hq2, if_true]
    rw [system_start_waiting_eq]

/-- C4 witness: evaluating the amended theorem at concrete inputs. -/
theorem c4_witness :
    K0.update_select_hold ≤ (3 : ℚ) ∧ K0.system_control_hold ≤ (3 : ℚ) ∧
    ((((PiHole.show_menu K0 3 false initState).1).pihole.waiting_for_confirmation = false ∧
      (((PiHole.show_menu K0 3 false initState).1).pihole.confirmation_timer = none)) ∧
     ((SystemOps.show_menu K0 3 false initState).1).system.waiting_for_confirmation = true) :=
  ⟨by decide, by decide, c4_display_failure K0 initState initState 3 (by decide) (by decide)⟩

/-- C3: for a button with both a press and a hold callback registered,
one press-then-release cycle emits exactly one logical event: the hold
callback with the measured duration when the duration reaches the hold
threshold, otherwise the press callback — never both. -/
theorem c3_exactly_one_event (b : ButtonHandler.Button) (s : ButtonHandler.BState)
    (t0 t1 : ℚ) (hp : b.has_press_callback = true)
    (hh : b.has_hold_callback = true) :
    ((ButtonHandler.pressReleaseCycle b s t0 t1).2).length = 1 ∧
    (ButtonHandler.pressReleaseCycle b s t0 t1).2 =
      (if b.hold_time ≤ t1 - t0 then
        [ButtonHandler.LogicalEvent.hold (t1 - t0)]
       else
        [ButtonHandler.LogicalEvent.press]) := by
  unfold ButtonHandler.pressReleaseCycle ButtonHandler.on_press
    ButtonHandler.on_release ButtonHandler.handle_press
  by_cases hd : b.hold_time ≤ t1 - t0 <;> simp [hp, hh, hd]

/-- C3 witness: a 2-second hold against a threshold of 1 yields exactly
one hold event. -/
theorem c3_witness :
    (({ has_press_callback := true, has_hold_callback := true, hold_time := 1 } :
        ButtonHandler.Button).has_press_callback = true) ∧
    (({ has_press_callback := true, has_hold_callback := true, hold_time := 1 } :
        ButtonHandler.Button).has_hold_callback = true) ∧
    ((ButtonHandler.pressReleaseCycle
        { has_press_callback := true, has_hold_callback := true, hold_time := 1 }
        { hold_start := none, press_handled := false } 0 2).2).length = 1 :=
  ⟨rfl, rfl,
    (c3_exactly_one_event
      { has_press_callback := true, has_hold_callback := true, hold_time := 1 }
      { hold_start := none, press_handled := false } 0 2 rfl rfl).1⟩

theorem step_brightness_iterate (b : DisplayBacklight.Backlight) (k : Nat)
    (hlt : b.current_step < b.brightness_levels.length) :
    DisplayBacklight.step_brightness^[k] b =
      { brightness_levels := b.brightness_levels
      , current_step := (b.current_step + k) % b.brightness_levels.length } := by
  induction k generalizing b with
  | zero =>
      cases b with
      | mk levels i => simp [Nat.mod_eq_of_lt hlt]
  | succ k ih =>
      have hpos : 0 < b.brightness_levels.length :=
        lt_of_le_of_lt (Nat.zero_le _) hlt
      have hlt' : (DisplayBacklight.step_brightness b).current_step <
          (DisplayBacklight.step_brightness b).brightness_levels.length := by
        simp only [DisplayBacklight.step_brightness]
        exact Nat.mod_lt _ hpos
      rw [Function.iterate_succ_apply, ih _ hlt']
      simp only [DisplayBacklight.step_brightness]
      rw [Nat.mod_add_mod]
      congr 2
      omega

/-- C10: for a validated, descending brightness level list of length
`n ≥ 2` and a valid `current_step`, each `step_brightness` call keeps
`current_step` a valid index, advancing it by one modulo `n`, and `n`
consecutive calls return both `current_step` and the selected brightness
level to their starting values. -/
theorem c10_step_brightness_cycle (b : DisplayBacklight.Backlight)
    (hv : DisplayBacklight.validate_brightness_levels b.brightness_levels = true)
    (hlt : b.current_step < b.brightness_levels.length) :
    (DisplayBacklight.step_brightness b).current_step =
      (b.current_step + 1) % b.brightness_levels.length ∧
    (DisplayBacklight.step_brightness b).current_step <
      b.brightness_levels.length ∧
    DisplayBacklight.step_brightness^[b.brightness_levels.length] b = b ∧
    DisplayBacklight.selected_level
        (DisplayBacklight.step_brightness^[b.brightness_levels.length] b) =
      DisplayBacklight.selected_level b := by
  have hpos : 0 < b.brightness_levels.length :=
    lt_of_le_of_lt (Nat.zero_le _) hlt
  have hcycle : DisplayBacklight.step_brightness^[b.brightness_levels.length] b
      = b := by
    rw [step_brightness_iterate b _ hlt]
    cases b with
    | mk levels i =>
        simp only []
        congr 1
        simp only [Nat.add_mod_right]
        exact Nat.mod_eq_of_lt hlt
  refine ⟨rfl, ?_, hcycle, by rw [hcycle]⟩
  simp only [DisplayBacklight.step_brightness]
  exact Nat.mod_lt _ hpos

/-- C10 witness: the two-level configuration cycles back after two
steps. -/
theorem c10_witness :
    DisplayBacklight.validate_brightness_levels
      ({ brightness_levels := [1, 0], current_step := 0 } :
        DisplayBacklight.Backlight).brightness_levels = true ∧
    ({ brightness_levels := [1, 0], current_step := 0 } :
        DisplayBacklight.Backlight).current_step <
      ({ brightness_levels := [1, 0], current_step := 0 } :
        DisplayBacklight.Backlight).brightness_levels.length ∧
    DisplayBacklight.step_brightness^[2]
        ({ brightness_levels := [1, 0], current_step := 0 } :
          DisplayBacklight.Backlight) =
      { brightness_levels := [1, 0], current_step := 0 } :=
  ⟨by decide, by decide,
    (c10_step_brightness_cycle
      { brightness_levels := [1, 0], current_step := 0 }
      (by decide) (by decide)).2.2.1⟩

/-- C7: confirming an armed controller clears its waiting flag and
cancels its timer strictly before the action is launched — the timer
cancellation precedes the action-start effect in the trace, and the state
snapshot at the action-start effect shows the controller idle (flag
false, timer gone) — for `PiHole.request_gravity_update` and
`SystemOps.request_reboot`. -/
theorem c7_clear_before_action (K : Consts) (sP sS : SysState) (tidP tidS : Nat)
    (hwP : sP.pihole.waiting_for_confirmation = true)
    (htP : sP.pihole.confirmation_timer = some tidP)
    (hwS : sS.system.waiting_for_confirmation = true)
    (htS : sS.system.confirmation_timer = some tidS) :
    (∃ s1, PiHole.request_gravity_update K sP =
        (s1, [(Effect.timerCancel Ctl.pihole tidP, sP),
              (Effect.actionStart ActionName.gravityUpdate, s1),
              (Effect.sleep K.feedback_delay, s1),
              (Effect.switchToPadd, s1)]) ∧
      s1.pihole.waiting_for_confirmation = false ∧
      s1.pihole.confirmation_timer = none) ∧
    (∃ s2, SystemOps.request_reboot K sS =
        (s2, [(Effect.timerCancel Ctl.system tidS, sS),
              (Effect.sleep K.feedback_delay, s2),
              (Effect.actionStart ActionName.rebootSystem, s2)]) ∧
      s2.system.waiting_for_confirmation = false ∧
      s2.system.confirmation_timer = none) := by
  constructor
  · refine ⟨(PiHole.clear_confirmation_state sP).1, ?_, ?_, ?_⟩
    · unfold PiHole.request_gravity_update PiHole.update_gravity
      simp [hwP, pihole_clear_eq_some sP tidP htP]
    · rw [pihole_clear_pihole_eq]
    · rw [pihole_clear_pihole_eq]
  · refine ⟨(SystemOps.clear_confirmation_state sS).1, ?_, ?_, ?_⟩
    · unfold SystemOps.request_reboot SystemOps.reboot_system
      simp [hwS, system_clear_eq_some sS tidS htS]
    · rw [system_clear_system_eq]
    · rw [system_clear_system_eq]

/-- C7 witness: evaluating the theorem on concrete armed states. -/
theorem c7_witness :
    ((⟨⟨true, some 3⟩, ⟨false, none⟩, false, [(Ctl.pihole, 3)], 7⟩ :
        SysState).pihole.waiting_for_confirmation = true) ∧
    ((⟨⟨true, some 3⟩, ⟨false, none⟩, false, [(Ctl.pihole, 3)], 7⟩ :
        SysState).pihole.confirmation_timer = some 3) ∧
    ((⟨⟨false, none⟩, ⟨true, some 4⟩, false, [(Ctl.system, 4)], 9⟩ :
        SysState).system.waiting_for_confirmation = true) ∧
    ((⟨⟨false, none⟩, ⟨true, some 4⟩, false, [(Ctl.system, 4)], 9⟩ :
        SysState).system.confirmation_timer = some 4) ∧
    ((∃ s1, PiHole.request_gravity_update K0
          ⟨⟨true, some 3⟩, ⟨false, none⟩, false, [(Ctl.pihole, 3)], 7⟩ =
        (s1, [(Effect.timerCancel Ctl.pihole 3,
               ⟨⟨true, some 3⟩, ⟨false, none⟩, false, [(Ctl.pihole, 3)], 7⟩),
              (Effect.actionStart ActionName.gravityUpdate, s1),
              (Effect.sleep K0.feedback_delay, s1),
              (Effect.switchToPadd, s1)]) ∧
      s1.pihole.waiting_for_confirmation = false ∧
      s1.pihole.confirmation_timer = none) ∧
     (∃ s2, SystemOps.request_reboot K0
          ⟨⟨false, none⟩, ⟨true, some 4⟩, false, [(Ctl.system, 4)], 9⟩ =
        (s2, [(Effect.timerCancel Ctl.system 4,
               ⟨⟨false, none⟩, ⟨true, some 4⟩, false, [(Ctl.system, 4)], 9⟩),
              (Effect.sleep K0.feedback_delay, s2),
              (Effect.actionStart ActionName.rebootSystem, s2)]) ∧
      s2.system.waiting_for_confirmation = false ∧
      s2.system.confirmation_timer = none)) :=
  ⟨rfl, rfl, rfl, rfl,
    c7_clear_before_action K0
      ⟨⟨true, some 3⟩, ⟨false, none⟩, false, [(Ctl.pihole, 3)], 7⟩
      ⟨⟨false, none⟩, ⟨true, some 4⟩, false, [(Ctl.system, 4)], 9⟩
      3 4 rfl rfl rfl rfl⟩

/-- C8: whenever a controller's confirmation timer is started anew while
a timer is stored, the stored timer is cancelled strictly before the
replacement starts and the controller stores the new timer; in every
reachable state every live timer is the one stored for the current
session, so firing a timer identity that is not the stored one is a
no-op; and the timeout handler does nothing when the waiting flag is no
longer set. -/
theorem c8_timer_replacement (K : Consts) (evs : List Event) (c : Ctl)
    (tid : Nat) (sP sS sW : SysState) (oldP oldS : Nat)
    (hP : sP.pihole.confirmation_timer = some oldP)
    (hS : sS.system.confirmation_timer = some oldS)
    (hW1 : sW.pihole.waiting_for_confirmation = false)
    (hW2 : sW.system.waiting_for_confirmation = false)
    (hstale : (getCtl (run K evs) c).confirmation_timer ≠ some tid) :
    (∃ s1, PiHole.start_confirmation_timer K sP =
        (s1, [(Effect.timerCancel Ctl.pihole oldP, sP),
              (Effect.timerStart Ctl.pihole sP.fresh K.confirmation_timeout,
               { sP with live := cancelLive Ctl.pihole oldP sP.live })]) ∧
      s1.pihole.confirmation_timer = some sP.fresh) ∧
    (∃ s2, SystemOps.start_confirmation_timer K sS =
        (s2, [(Effect.timerCancel Ctl.system oldS, sS),
              (Effect.timerStart Ctl.system sS.fresh K.confirmation_timeout,
               { sS with live := cancelLive Ctl.system oldS sS.live })]) ∧
      s2.system.confirmation_timer = some sS.fresh) ∧
    PiHole.handle_timeout K sW = (sW, []) ∧
    SystemOps.handle_timeout K sW = (sW, []) ∧
    (c, tid) ∉ (run K evs).live ∧
    fire_timer K c tid (run K evs) = (run K evs, []) := by
  have hnotmem : (c, tid) ∉ (run K evs).live := fun hmem =>
    hstale (run_timerInv K evs c tid hmem)
  refine ⟨?_, ?_, ?_, ?_, hnotmem, ?_⟩
  · rw [pihole_start_eq_some K sP oldP hP]
    exact ⟨_, rfl, rfl⟩
  · rw [system_start_eq_some K sS oldS hS]
    exact ⟨_, rfl, rfl⟩
  · unfold PiHole.handle_timeout
    simp [hW1]
  · unfold SystemOps.handle_timeout
    simp [hW2]
  · unfold fire_timer
    simp [hnotmem]

/-- C8 witness: evaluating the theorem on concrete states, a concrete
event sequence that arms the PiHole controller, and a stale timer
identity. -/
theorem c8_witness :
    ((⟨⟨true, some 3⟩, ⟨false, none⟩, false, [(Ctl.pihole, 3)], 7⟩ :
        SysState).pihole.confirmation_timer = some 3) ∧
    ((⟨⟨false, none⟩, ⟨true, some 4⟩, false, [(Ctl.system, 4)], 9⟩ :
        SysState).system.confirmation_timer = some 4) ∧
    initState.pihole.waiting_for_confirmation = false ∧
    initState.system.waiting_for_confirmation = false ∧
    (getCtl (run K0 [Event.btn (BtnEvent.b2h 3 true)])
        Ctl.pihole).confirmation_timer ≠ some 5 ∧
    ((∃ s1, PiHole.start_confirmation_timer K0
          ⟨⟨true, some 3⟩, ⟨false, none⟩, false, [(Ctl.pihole, 3)], 7⟩ =
        (s1, [(Effect.timerCancel Ctl.pihole 3,
               ⟨⟨true, some 3⟩, ⟨false, none⟩, false, [(Ctl.pihole, 3)], 7⟩),
              (Effect.timerStart Ctl.pihole
                 (⟨⟨true, some 3⟩, ⟨false, none⟩, false, [(Ctl.pihole, 3)], 7⟩ :
                   SysState).fresh K0.confirmation_timeout,
               { (⟨⟨true, some 3⟩, ⟨false, none⟩, false, [(Ctl.pihole, 3)], 7⟩ :
                   SysState) with
                 live := cancelLive Ctl.pihole 3 [(Ctl.pihole, 3)] })]) ∧
      s1.pihole.confirmation_timer =
        some (⟨⟨true, some 3⟩, ⟨false, none⟩, false, [(Ctl.pihole, 3)], 7⟩ :
          SysState).fresh) ∧
     (∃ s2, SystemOps.start_confirmation_timer K0
          ⟨⟨false, none⟩, ⟨true, some 4⟩, false, [(Ctl.system, 4)], 9⟩ =
        (s2, [(Effect.timerCancel Ctl.system 4,
               ⟨⟨false, none⟩, ⟨true, some 4⟩, false, [(Ctl.system, 4)], 9⟩),
              (Effect.timerStart Ctl.system
                 (⟨⟨false, none⟩, ⟨true, some 4⟩, false, [(Ctl.system, 4)], 9⟩ :
                   SysState).fresh K0.confirmation_timeout,
               { (⟨⟨false, none⟩, ⟨true, some 4⟩, false, [(Ctl.system, 4)], 9⟩ :
                   SysState) with
                 live := cancelLive Ctl.system 4 [(Ctl.system, 4)] })]) ∧
      s2.system.confirmation_timer =
        some (⟨⟨false, none⟩, ⟨true, some 4⟩, false, [(Ctl.system, 4)], 9⟩ :
          SysState).fresh) ∧
     PiHole.handle_timeout K0 initState = (initState, []) ∧
     SystemOps.handle_timeout K0 initState = (initState, []) ∧
     (Ctl.pihole, 5) ∉ (run K0 [Event.btn (BtnEvent.b2h 3 true)]).live ∧
     fire_timer K0 Ctl.pihole 5 (run K0 [Event.btn (BtnEvent.b2h 3 true)]) =
       (run K0 [Event.btn (BtnEvent.b2h 3 true)], [])) :=
  ⟨rfl, rfl, rfl, rfl, by decide,
    c8_timer_replacement K0 [Event.btn (BtnEvent.b2h 3 true)] Ctl.pihole 5
      ⟨⟨true, some 3⟩, ⟨false, none⟩, false, [(Ctl.pihole, 3)], 7⟩
      ⟨⟨false, none⟩, ⟨true, some 4⟩, false, [(Ctl.system, 4)], 9⟩
      initState 3 4 rfl rfl rfl rfl (by decide)⟩

/-- C1: a button-2 hold of at least the update-select threshold, arriving
while neither controller waits for confirmation and no cancellation is in
progress, arms the PiHole controller: the dispatch trace starts the
confirmation timer and then requests the Pi-Hole menu, the state snapshot
at the menu request has the waiting flag true and the new timer stored,
and when the display call succeeds that armed state is the final state. -/
theorem c1_button2_hold_arms_pihole (K : Consts) (s : SysState) (q : ℚ)
    (ok : Bool) (hq : K.update_select_hold ≤ q)
    (hp : s.pihole.waiting_for_confirmation = false)
    (hs : s.system.waiting_for_confirmation = false)
    (hc : s.cancellation_in_progress = false) :
    ∃ t0 s1 s2 rest,
      (Main.button2_held K q ok s).2 =
        t0 ++ [(Effect.timerStart Ctl.pihole s1.fresh K.confirmation_timeout, s1),
               (Effect.showPiholeMenu, s2)] ++ rest ∧
      s2.pihole.waiting_for_confirmation = true ∧
      s2.pihole.confirmation_timer = some s1.fresh ∧
      (ok = true → (Main.button2_held K q ok s).1 = s2 ∧ rest = []) := by
  have hstep : Main.button2_held K q ok s = PiHole.show_menu K q ok s := by
    unfold Main.button2_held
    simp [hc, hp, hs]
  simp only [PiHole.show_menu, hq, if_true] at hstep
  cases ht : s.pihole.confirmation_timer with
  | none =>
      rw [pihole_start_eq_none K
        { s with pihole := { s.pihole with waiting_for_confirmation := true } }
        ht] at hstep
      cases ok with
      | true =>
          refine ⟨[],
            { s with pihole := { s.pihole with waiting_for_confirmation := true } },
            { s with
              pihole := { waiting_for_confirmation := true
                        , confirmation_timer := some s.fresh }
              live := (Ctl.pihole, s.fresh) :: s.live
              fresh := s.fresh + 1 },
            [], ?_, ?_, ?_, ?_⟩ <;> simp [hstep]
      | false =>
          refine ⟨[],
            { s with pihole := { s.pihole with waiting_for_confirmation := true } },
            { s with
              pihole := { waiting_for_confirmation := true
                        , confirmation_timer := some s.fresh }
              live := (Ctl.pihole, s.fresh) :: s.live
              fresh := s.fresh + 1 },
            (PiHole.cancel_update K
              { s with
                pihole := { waiting_for_confirmation := true
                          , confirmation_timer := some s.fresh }
                live := (Ctl.pihole, s.fresh) :: s.live
                fresh := s.fresh + 1 }).2, ?_, ?_, ?_, ?_⟩ <;> simp [hstep]
  | some old =>
      rw [pihole_start_eq_some K
        { s with pihole := { s.pihole with waiting_for_confirmation := true } }
        old ht] at hstep
      cases ok with
      | true =>
          refine ⟨[(Effect.timerCancel Ctl.pihole old,
              { s with pihole := { s.pihole with waiting_for_confirmation := true } })],
            { s with
              pihole := { s.pihole with waiting_for_confirmation := true }
              live := cancelLive Ctl.pihole old s.live },
            { s with
              pihole := { waiting_for_confirmation := true
                        , confirmation_timer := some s.fresh }
              live := (Ctl.pihole, s.fresh) :: cancelLive Ctl.pihole old s.live
              fresh := s.fresh + 1 },
            [], ?_, ?_, ?_, ?_⟩ <;> simp [hstep]
      | false =>
          refine ⟨[(Effect.timerCancel Ctl.pihole old,
              { s with pihole := { s.pihole with waiting_for_confirmation := true } })],
            { s with
              pihole := { s.pihole with waiting_for_confirmation := true }
              live := cancelLive Ctl.pihole old s.live },
            { s with
              pihole := { waiting_for_confirmation := true
                        , confirmation_timer := some s.fresh }
              live := (Ctl.pihole, s.fresh) :: cancelLive Ctl.pihole old s.live
              fresh := s.fresh + 1 },
            (PiHole.cancel_update K
              { s with
                pihole := { waiting_for_confirmation := true
                          , confirmation_timer := some s.fresh }
                live := (Ctl.pihole, s.fresh) :: cancelLive Ctl.pihole old s.live
                fresh := s.fresh + 1 }).2, ?_, ?_, ?_, ?_⟩ <;> simp [hstep]

/-- C1 witness: evaluating the theorem from the initial state with a
qualifying hold and a successful display call. -/
theorem c1_witness :
    K0.update_select_hold ≤ (3 : ℚ) ∧
    initState.pihole.waiting_for_confirmation = false ∧
    initState.system.waiting_for_confirmation = false ∧
    initState.cancellation_in_progress = false ∧
    (∃ t0 s1 s2 rest,
      (Main.button2_held K0 3 true initState).2 =
        t0 ++ [(Effect.timerStart Ctl.pihole s1.fresh K0.confirmation_timeout, s1),
               (Effect.showPiholeMenu, s2)] ++ rest ∧
      s2.pihole.waiting_for_confirmation = true ∧
      s2.pihole.confirmation_timer = some s1.fresh ∧
      (true = true → (Main.button2_held K0 3 true initState).1 = s2 ∧ rest = [])) :=
  ⟨by decide, rfl, rfl, rfl,
    c1_button2_hold_arms_pihole K0 initState 3 true (by decide) rfl rfl rfl⟩

/-- C5 counterexample: with the SystemOps controller armed (reached from
the initial state by a qualifying button-1 hold), pressing button 3 while
the reboot command exits non-zero makes the `ServiceError` raised by
`reboot_system` escape the button-event path as an exception — not a
handled failure result — refuting the claim as stated. -/
theorem c5_counterexample :
    (Main.button3_pressed_exec K0 (ProcOutcome.completed 1 "")
        (runBtn K0 [BtnEvent.b1h 3 true])).1 =
      Except.error { operation := "reboot system"
                   , cause := FailureCause.calledProcessError 1 } := by rfl

/-- C5 (amended): `_run_process_command` returns a completed command's
exit code and captured output as a result value (non-zero exit included)
and reports spawn failure as a distinct `ServiceError` kind, and
`update_system` catches every such error, so the update path never leaks
an exception; but `reboot_system` and `shutdown_system` re-raise both
non-zero exit (via `check=True`) and spawn failure as `ServiceError`,
which propagates uncaught through `request_reboot`/`request_shutdown`
into the button handlers. -/
theorem c5_failure_reporting (K : Consts) (rc : Int) (out msg op : String)
    (fin : Bool) (o1 o2 : ProcOutcome) (s : SysState) (hrc : rc ≠ 0)
    (hw : s.system.waiting_for_confirmation = true) :
    (SystemOps.run_process_command K (ProcOutcome.completed rc out) op fin).1 =
      Except.ok (rc, out) ∧
    (SystemOps.run_process_command K (ProcOutcome.subprocessError msg) op fin).1 =
      Except.error { operation := op, cause := FailureCause.spawnFailure msg } ∧
    (SystemOps.update_system_exec K o1 o2).1 = Except.ok () ∧
    (SystemOps.reboot_system_exec K (ProcOutcome.completed rc out)).1 =
      Except.error { operation := "reboot system"
                   , cause := FailureCause.calledProcessError rc } ∧
    (SystemOps.shutdown_system_exec K (ProcOutcome.subprocessError msg)).1 =
      Except.error { operation := "shutdown system"
                   , cause := FailureCause.spawnFailure msg } ∧
    (Main.button3_pressed_exec K (ProcOutcome.completed rc out) s).1 =
      Except.error { operation := "reboot system"
                   , cause := FailureCause.calledProcessError rc } := by
  refine ⟨rfl, rfl, ?_, ?_, rfl, ?_⟩
  · unfold SystemOps.update_system_exec SystemOps.run_process_command
    cases o1 with
    | completed rc1 out1 =>
        by_cases h1 : rc1 = 0 <;> by_cases h2 : containsUpToDate out1 <;>
          cases o2 <;> simp [h1, h2]
    | subprocessError m => rfl
  · unfold SystemOps.reboot_system_exec
    simp [hrc]
  · unfold Main.button3_pressed_exec SystemOps.request_reboot_exec
      SystemOps.reboot_system_exec
    simp [hw, hrc]

/-- C5 witness: evaluating the amended theorem at a command exiting with
code 1 and an armed SystemOps state. -/
theorem c5_witness :
    (1 : Int) ≠ 0 ∧
    ((⟨⟨false, none⟩, ⟨true, some 0⟩, false, [(Ctl.system, 0)], 1⟩ :
        SysState).system.waiting_for_confirmation = true) ∧
    ((SystemOps.run_process_command K0 (ProcOutcome.completed 1 "out") "op" true).1 =
       Except.ok (1, "out") ∧
     (SystemOps.run_process_command K0 (ProcOutcome.subprocessError "m") "op" true).1 =
       Except.error { operation := "op", cause := FailureCause.spawnFailure "m" } ∧
     (SystemOps.update_system_exec K0 (ProcOutcome.completed 0 "")
        (ProcOutcome.completed 0 "")).1 = Except.ok () ∧
     (SystemOps.reboot_system_exec K0 (ProcOutcome.completed 1 "out")).1 =
       Except.error { operation := "reboot system"
                    , cause := FailureCause.calledProcessError 1 } ∧
     (SystemOps.shutdown_system_exec K0 (ProcOutcome.subprocessError "m")).1 =
       Except.error { operation := "shutdown system"
                    , cause := FailureCause.spawnFailure "m" } ∧
     (Main.button3_pressed_exec K0 (ProcOutcome.completed 1 "out")
        ⟨⟨false, none⟩, ⟨true, some 0⟩, false, [(Ctl.system, 0)], 1⟩).1 =
       Except.error { operation := "reboot system"
                    , cause := FailureCause.calledProcessError 1 }) :=
  ⟨by decide, rfl,
    c5_failure_reporting K0 1 "out" "m" "op" true
      (ProcOutcome.completed 0 "") (ProcOutcome.completed 0 "")
      ⟨⟨false, none⟩, ⟨true, some 0⟩, false, [(Ctl.system, 0)], 1⟩
      (by decide) rfl⟩

/-- C6 counterexample: a reboot attempt whose command exits non-zero
leaves no switch back to the PADD view in its effect trace — the display
is not restored on any reboot/shutdown path — refuting the claim for
these actions. -/
theorem c6_counterexample :
    Effect.switchToPadd ∉
      (SystemOps.reboot_system_exec K0 (ProcOutcome.completed 1 "")).2 := by
  decide

/-- C6 (amended): every update-style action (`update_gravity`,
`update_pihole`, `update_padd`, `_run_process_command` with
`finish=True`, and `update_system`) ends its effect trace by switching
the display back to PADD after the settle-delay sleep, regardless of
outcome, via the `finally` block; `reboot_system` and `shutdown_system`
never emit a switch back to PADD. -/
theorem c6_display_restore (K : Consts) (o o1 o2 : ProcOutcome) (op : String) :
    (∃ t, (PiHole.update_gravity_exec K o).2 =
      t ++ [Effect.sleep K.feedback_delay, Effect.switchToPadd]) ∧
    (∃ t, (PiHole.update_pihole_exec K o).2 =
      t ++ [Effect.sleep K.feedback_delay, Effect.ftlRecoveryWait,
            Effect.switchToPadd]) ∧
    (∃ t, (PiHole.update_padd_exec K o).2 =
      t ++ [Effect.sleep K.feedback_delay, Effect.switchToPadd]) ∧
    (∃ t, (SystemOps.run_process_command K o op true).2 =
      t ++ [Effect.sleep K.feedback_delay, Effect.switchToPadd]) ∧
    (∃ t, (SystemOps.update_system_exec K o1 o2).2 =
      t ++ [Effect.sleep K.feedback_delay, Effect.switchToPadd]) ∧
    Effect.switchToPadd ∉ (SystemOps.reboot_system_exec K o).2 ∧
    Effect.switchToPadd ∉ (SystemOps.shutdown_system_exec K o).2 := by
  refine ⟨?_, ?_, ?_, ?_, ?_, ?_, ?_⟩
  · cases o <;> exact ⟨_, rfl⟩
  · cases o <;> exact ⟨_, rfl⟩
  · cases o <;> exact ⟨_, rfl⟩
  · cases o <;> exact ⟨[], rfl⟩
  · unfold SystemOps.update_system_exec SystemOps.run_process_command
    cases o1 with
    | completed rc1 out1 =>
        by_cases h1 : rc1 = 0
        · by_cases h2 : containsUpToDate out1
          · exact ⟨[], by simp [h1, h2]⟩
          · cases o2 with
            | completed rc2 out2 => exact ⟨[], by simp [h1, h2]⟩
            | subprocessError m =>
                exact ⟨[Effect.sleep K.feedback_delay, Effect.switchToPadd],
                  by simp [h1, h2]⟩
        · exact ⟨[], by simp [h1]⟩
    | subprocessError m => exact ⟨[], rfl⟩
  · unfold SystemOps.reboot_system_exec
    cases o with
    | completed rc out => by_cases h : rc = 0 <;> simp [h]
    | subprocessError m => simp
  · unfold SystemOps.shutdown_system_exec
    cases o with
    | completed rc out => by_cases h : rc = 0 <;> simp [h]
    | subprocessError m => simp
